import Mathlib

/-!
Formal model of the reconciliation logic of `src/library/etcd.py`: the
`main` function (lines 202-371), which reads the current state of one key
from an etcd store and then, according to `state` (present / absent /
directory), `value`, `override`, `recursive` and Ansible check mode,
either exits with a results dict, fails with a message, or issues mutating
store calls. The external python-etcd client is not part of the
repository; its observable behaviour at the single key is modelled from
the spec (§3, §6) as a snapshot `Option Node`.
-/

namespace Etcd

/-- Observed content of the module key, one snapshot per run: either a
leaf holding a scalar value or a directory with the list of its immediate
children keys; `none` at use sites means the key is absent. -/
inductive Node where
  | leaf (value : String)
  | dir (children : List String)
deriving DecidableEq, Repr

/-- Module parameters that reach the decision logic of `main`
(src/library/etcd.py lines 204-223, 234-248): `state`, `key`, `value`,
`override`, `recursive`, and Ansible check mode (dry run). The transport
parameters (protocol, host, port, certificates, credentials, timeouts)
only configure the client and never affect the decision. -/
structure Params where
  state : String
  key : String
  value : Option String
  override : Bool
  recursive : Bool
  check_mode : Bool
deriving DecidableEq, Repr

/-- Modelled from the spec: the value `client.get(key).value` of the
external python-etcd client (lines 268-274), which is not part of this
repository. Per §3 of the spec, `ObservedState.value` is present only when
the key exists and is not a directory, and per the glossary a directory
holds "no scalar value of its own"; an absent key raises EtcdKeyNotFound,
caught at lines 272-274, leaving `prev_value = None`. -/
def prevValue : Option Node → Option String
  | some (Node.leaf v) => some v
  | _ => none

/-- The `data` dict built from `client.read(key)` at lines 277-297.
`children` mirrors the Python dict entry: it is set (line 291) only when
`full_record._children` is non-empty, so `none` means the dict has no
`children` key at all and a later subscript `data[...]` on that key raises
KeyError; when set, it holds a non-empty dict of the children. -/
structure DataRec where
  dir : Bool
  value : Option String
  children : Option (List String)
deriving DecidableEq, Repr

/-- The read at lines 277-297 as a function of the observed snapshot:
EtcdKeyNotFound leaves `data = None` (lines 296-297); a directory sets
`data[\x27dir\x27] = True` (lines 282-284), a leaf records its value
(lines 286-288); `_children` is empty for a leaf and holds the children
for a directory, and the `children` entry is set only when that list is
non-empty (lines 290-293). -/
def readData : Option Node → Option DataRec
  | none => none
  | some (Node.leaf v) => some { dir := false, value := some v, children := none }
  | some (Node.dir ch) =>
      some { dir := true, value := none,
             children := if ch.isEmpty then none else some ch }

/-- The `results` dict the module reports (lines 264, 282-294): the
`changed` flag, the echoed key, the `dir` flag and, for a leaf, the
observed value. -/
structure Results where
  changed : Bool
  key : String
  dir : Bool
  value : Option String
deriving DecidableEq, Repr

/-- A mutating store call issued by `main`: `client.write(key, value)`
(lines 327, 338), `client.write(key, None, dir=True)` (line 311),
`client.delete(key, recursive=True)` (line 355),
`client.delete(key, dir=True)` (line 360), `client.delete(key)`
(line 366). -/
inductive StoreCall where
  | writeLeaf (key : String) (value : String)
  | writeDir (key : String)
  | deleteRecursive (key : String)
  | deleteDir (key : String)
  | deleteLeaf (key : String)
deriving DecidableEq, Repr

/-- How a run of `main` terminates: `module.exit_json(**results)`,
`module.fail_json(msg=...)`, or an uncaught Python exception. -/
inductive Outcome where
  | exitJson (results : Results)
  | failJson (msg : String)
  | crash (msg : String)
deriving DecidableEq, Repr

/-- The decision logic of `main` (lines 202-371) after parameter parsing
and client construction, as a function of the parameters and the observed
snapshot of the key, returning the terminal outcome together with the
mutating store calls issued on the way. Transport failures are not
modelled (the ConnectionError handlers at lines 329-330 and 368-369 never
fire): per §6 of the spec the mutating calls succeed. -/
def main (p : Params) (obs : Option Node) : Outcome × List StoreCall :=
  let prev_value := prevValue obs
  let data := readData obs
  let results : Results :=
    { changed := false, key := p.key,
      dir := match data with | some d => d.dir | none => false,
      value := match data with | some d => d.value | none => none }
  -- Handle check mode (lines 299-306)
  if p.check_mode then
    if p.state = "present" ∧ p.value = none ∧ prev_value ≠ none then
      (Outcome.exitJson results, [])
    else if (p.state = "absent" ∧ prev_value ≠ none) ∨
        (p.state = "present" ∧ prev_value ≠ p.value) then
      (Outcome.exitJson { results with changed := true }, [])
    else
      (Outcome.exitJson results, [])
  -- we are making a directory (lines 308-318)
  else if p.state = "directory" then
    if prev_value = none ∧ results.dir = false then
      (Outcome.exitJson { results with changed := true, dir := true },
        [StoreCall.writeDir p.key])
    else if results.dir then
      (Outcome.exitJson results, [])
    else
      (Outcome.failJson ("A non-directory key already exists at " ++ p.key), [])
  -- lets handle create mode (lines 320-344)
  else if p.state = "present" then
    match prev_value with
    | none =>
        match p.value with
        | none =>
            (Outcome.failJson
              ("Key " ++ p.key ++ " does not exist and new value not provided."), [])
        | some v =>
            (Outcome.exitJson { results with changed := true },
              [StoreCall.writeLeaf p.key v])
    | some pv =>
        -- line 333: `prev_value == value or value is None`
        match p.value with
        | none => (Outcome.exitJson results, [])
        | some v =>
            if pv = v then (Outcome.exitJson results, [])
            else if p.override then
              (Outcome.exitJson { results with changed := true },
                [StoreCall.writeLeaf p.key v])
            else
              (Outcome.failJson
                ("The Key \x27" ++ p.key ++ "\x27 is already set with \x27" ++
                  pv ++ "\x27, exiting..."), [])
  -- And finally delete mode (lines 346-369)
  else if p.state = "absent" then
    match prev_value with
    | none => (Outcome.exitJson results, [])
    | some _ =>
        match data with
        | none =>
            -- line 351 would subscript data = None
            (Outcome.crash "TypeError: data is None", [])
        | some d =>
            if d.dir then
              match d.children with
              | none =>
                  -- line 353 subscripts the missing children entry
                  (Outcome.crash "KeyError: children", [])
              | some _ =>
                  -- the stored children entry is a non-empty dict, never
                  -- None, so the guards at lines 353 and 358 are both
                  -- false: no branch runs and control falls through to
                  -- exit_json at line 371 with changed still false
                  (Outcome.exitJson results, [])
            else
              (Outcome.exitJson { results with changed := true },
                [StoreCall.deleteLeaf p.key])
  else
    (Outcome.exitJson results, [])

/-- The changed flag an outcome reports; fail_json and crashes report
no changed flag. -/
def changedFlag : Outcome → Bool
  | Outcome.exitJson r => r.changed
  | _ => false

/-- Whether the run ended in a successful `exit_json`. -/
def isExit : Outcome → Bool
  | Outcome.exitJson _ => true
  | _ => false

/-- Modelled from the spec (§6): the effect of one mutating call on the
store, restricted to the module key; `writeDirectory` is create-if-absent
and a no-op on an existing directory, deletes remove the key. -/
def applyCall (s : Option Node) : StoreCall → Option Node
  | StoreCall.writeLeaf _ v => some (Node.leaf v)
  | StoreCall.writeDir _ =>
      match s with
      | some (Node.dir ch) => some (Node.dir ch)
      | _ => some (Node.dir [])
  | StoreCall.deleteRecursive _ => none
  | StoreCall.deleteDir _ => none
  | StoreCall.deleteLeaf _ => none

/-- Apply the issued calls to the store in order. -/
def applyCalls (s : Option Node) (cs : List StoreCall) : Option Node :=
  cs.foldl applyCall s

/-- One full run against the store: observe the snapshot, decide, execute
the issued calls; returns the outcome and the resulting store. -/
def step (p : Params) (s : Option Node) : Outcome × Option Node :=
  ((main p s).1, applyCalls s (main p s).2)

/-- Two consecutive runs with no external mutation in between: the pair of
outcomes. -/
def runTwice (p : Params) (s : Option Node) : Outcome × Outcome :=
  ((step p s).1, (step p (step p s).2).1)


/-- C1: dry-run fidelity fails on the code. With state=present, no value
supplied and an absent key, check mode (lines 299-306) exits successfully
with changed=false, while the real run fails with the MissingValue message
(line 324): the dry run does not report the Fail the real run would
report. -/
theorem check_mode_not_faithful_on_missing_value :
    (main { state := "present", key := "/a/b", value := none, override := false,
                    recursive := false, check_mode := true } none).1
      = Outcome.exitJson { changed := false, key := "/a/b", dir := false, value := none }
    ∧ (main { state := "present", key := "/a/b", value := none, override := false,
                    recursive := false, check_mode := false } none).1
      = Outcome.failJson "Key /a/b does not exist and new value not provided." :=
  ⟨rfl, rfl⟩

/-- C2: the claimed recursive directory delete never happens. With
state=absent, recursive=true and an observed non-empty directory, the
module exits with changed=false and issues no store call at all — the
`client.delete(key, recursive=True)` at line 355 is dead code. -/
theorem absent_nonempty_dir_recursive_no_delete :
    main { state := "absent", key := "/a", value := none, override := false,
                   recursive := true, check_mode := false } (some (Node.dir ["/a/b"]))
      = (Outcome.exitJson { changed := false, key := "/a", dir := true, value := none },
          []) :=
  rfl

/-- C3: the DirectoryNotEmpty guard never fires. With state=absent,
recursive=false and an observed non-empty directory, the module exits
successfully with changed=false instead of failing — the failure message
at line 362 is unreachable. -/
theorem absent_nonempty_dir_nonrecursive_no_fail :
    main { state := "absent", key := "/a", value := none, override := false,
                   recursive := false, check_mode := false } (some (Node.dir ["/a/b"]))
      = (Outcome.exitJson { changed := false, key := "/a", dir := true, value := none },
          []) :=
  rfl

/-- C4: an empty observed directory under state=absent is never deleted.
For both values of the recursive flag the module exits with changed=false
and issues no store call, instead of the claimed DeleteDirectory with
changed=true. -/
theorem absent_empty_dir_no_delete :
    main { state := "absent", key := "/a", value := none, override := false,
                   recursive := false, check_mode := false } (some (Node.dir []))
      = (Outcome.exitJson { changed := false, key := "/a", dir := true, value := none },
          [])
    ∧ main { state := "absent", key := "/a", value := none, override := false,
                   recursive := true, check_mode := false } (some (Node.dir []))
      = (Outcome.exitJson { changed := false, key := "/a", dir := true, value := none },
          []) :=
  ⟨rfl, rfl⟩

/-- C5: no silent overwrite. For any key and any differing observed and
desired values, state=present with override=false fails with the message
carrying the existing value and issues no write (lines 340-342); with
override=true it issues the overwriting `client.write` and reports
changed=true (lines 336-339). -/
theorem no_silent_overwrite (k pv v : String) (h : pv ≠ v) :
    main { state := "present", key := k, value := some v, override := false,
                   recursive := false, check_mode := false } (some (Node.leaf pv))
      = (Outcome.failJson ("The Key \x27" ++ k ++ "\x27 is already set with \x27"
          ++ pv ++ "\x27, exiting..."), [])
    ∧ main { state := "present", key := k, value := some v, override := true,
                   recursive := false, check_mode := false } (some (Node.leaf pv))
      = (Outcome.exitJson { changed := true, key := k, dir := false, value := some pv },
          [StoreCall.writeLeaf k v]) := by
  constructor
  · show (if pv = v then _ else _) = _
    rw [if_neg h]
    rfl
  · show (if pv = v then _ else _) = _
    rw [if_neg h]
    rfl

/-- C5 witness: instantiated at key "k", observed value "v1", desired
value "v2". -/
theorem no_silent_overwrite_witness :
    main { state := "present", key := "k", value := some "v2", override := false,
                   recursive := false, check_mode := false } (some (Node.leaf "v1"))
      = (Outcome.failJson ("The Key \x27" ++ "k" ++ "\x27 is already set with \x27"
          ++ "v1" ++ "\x27, exiting..."), [])
    ∧ main { state := "present", key := "k", value := some "v2", override := true,
                   recursive := false, check_mode := false } (some (Node.leaf "v1"))
      = (Outcome.exitJson { changed := true, key := "k", dir := false, value := some "v1" },
          [StoreCall.writeLeaf "k" "v2"]) :=
  no_silent_overwrite "k" "v1" "v2" (by decide)

/-- C6: state=present on an absent key. With no value supplied the run
fails with the MissingValue message (line 324); with a value supplied it
issues `client.write(key, value)` and reports changed=true
(lines 326-328). -/
theorem present_absent_key_create_or_missing_value (k v : String) :
    main { state := "present", key := k, value := none, override := false,
                   recursive := false, check_mode := false } none
      = (Outcome.failJson ("Key " ++ k ++ " does not exist and new value not provided."),
          [])
    ∧ main { state := "present", key := k, value := some v, override := false,
                   recursive := false, check_mode := false } none
      = (Outcome.exitJson { changed := true, key := k, dir := false, value := none },
          [StoreCall.writeLeaf k v]) :=
  ⟨rfl, rfl⟩

/-- C7: state=present on an observed directory is not detected as a path
conflict. Since a directory carries no scalar value, prev_value is None
and the module takes the creation branch: it issues a leaf write at the
directory path and reports changed=true, instead of failing with
PathConflict and attempting no write. -/
theorem present_on_directory_attempts_leaf_write :
    main { state := "present", key := "/a", value := some "v2", override := false,
                   recursive := false, check_mode := false } (some (Node.dir ["/a/c"]))
      = (Outcome.exitJson { changed := true, key := "/a", dir := true, value := none },
          [StoreCall.writeLeaf "/a" "v2"]) :=
  rfl

/-- C8: the directory-target decision table (lines 308-318). On an absent
key the module creates the directory and reports changed=true; on an
existing directory it exits with changed=false and no call; on a leaf it
fails with the path-conflict message and never writes. -/
theorem directory_state_decision_table (k lv : String) (ch : List String)
    (val : Option String) (ov rc : Bool) :
    main { state := "directory", key := k, value := val, override := ov,
                   recursive := rc, check_mode := false } none
      = (Outcome.exitJson { changed := true, key := k, dir := true, value := none },
          [StoreCall.writeDir k])
    ∧ main { state := "directory", key := k, value := val, override := ov,
                   recursive := rc, check_mode := false } (some (Node.dir ch))
      = (Outcome.exitJson { changed := false, key := k, dir := true, value := none }, [])
    ∧ main { state := "directory", key := k, value := val, override := ov,
                   recursive := rc, check_mode := false } (some (Node.leaf lv))
      = (Outcome.failJson ("A non-directory key already exists at " ++ k), []) :=
  ⟨rfl, rfl, rfl⟩

/-- C9 counterexample: a deterministically failing desired state repeats
its failure. With state=present, no value and an absent key, the second of
two consecutive runs is a fail_json, not a NoOp with changed=false. -/
theorem second_run_not_noop_after_failure :
    (runTwice { state := "present", key := "/a", value := none, override := false,
                        recursive := false, check_mode := false } none).2
      = Outcome.failJson "Key /a does not exist and new value not provided."
    ∧ isExit (runTwice { state := "present", key := "/a", value := none,
                         override := false, recursive := false,
                         check_mode := false } none).2
      = false :=
  ⟨rfl, rfl⟩
/-- A concrete parameter set: state=absent at key "/k" with recursive=true,
check mode off. -/
def absentRecursiveParams : Params :=
  { state := "absent", key := "/k", value := none, override := false,
    recursive := true, check_mode := false }

/-- A concrete parameter set: state=present at key "/a" with value "v",
check mode off. -/
def createLeafParams : Params :=
  { state := "present", key := "/a", value := some "v", override := false,
    recursive := false, check_mode := false }

/-- C10: in the real (non-check-mode) absent-target branch, a directory
observed at the key always yields changed=false with no store call issued,
and the changed flag is true exactly when the observed key is a plain leaf
(the delete path at lines 363-367); no directory-handling path ever sets
the changed flag. -/
theorem absent_directory_never_changed (p : Params) (obs : Option Node)
    (h1 : p.state = "absent") (h2 : p.check_mode = false) :
    (∀ ch, obs = some (Node.dir ch) →
        main p obs = (Outcome.exitJson ⟨false, p.key, true, none⟩, []))
    ∧ changedFlag (main p obs).1
        = (match obs with | some (Node.leaf _) => true | _ => false) := by
  obtain ⟨st, k, val, ov, rc, cm⟩ := p
  have hst : st = "absent" := h1
  have hcm : cm = false := h2
  subst hst
  subst hcm
  cases obs with
  | none => exact ⟨fun ch h => by simp at h, rfl⟩
  | some n =>
    cases n with
    | leaf v => exact ⟨fun ch h => by simp at h, rfl⟩
    | dir ch0 => exact ⟨fun ch h => rfl, rfl⟩

/-- C10 witness: instantiated at key "/k" observed as a directory with one
child, recursive=true. -/
theorem absent_directory_never_changed_witness :
    (∀ ch, (some (Node.dir ["/k/a"]) : Option Node) = some (Node.dir ch) →
        main absentRecursiveParams (some (Node.dir ["/k/a"]))
          = (Outcome.exitJson ⟨false, "/k", true, none⟩, []))
    ∧ changedFlag (main absentRecursiveParams (some (Node.dir ["/k/a"]))).1
        = (match (some (Node.dir ["/k/a"]) : Option Node) with
           | some (Node.leaf _) => true | _ => false) :=
  absent_directory_never_changed absentRecursiveParams
    (some (Node.dir ["/k/a"])) rfl rfl

/-- C9 (amended): with check mode off, two consecutive runs of
observe-decide-execute with no external mutation in between report
changed=true at most once, and whenever the first run exits successfully
the second run is a no-op: it exits successfully with changed=false and
issues no store call. (The original claim also demanded a no-op second run
after a failing first run, which the code refutes: a deterministic failure
repeats.) -/
theorem runs_idempotent_after_success (p : Params) (s : Option Node)
    (hcm : p.check_mode = false) :
    ¬(changedFlag (main p s).1 = true ∧ changedFlag (main p (step p s).2).1 = true)
    ∧ (isExit (main p s).1 = true →
        isExit (main p (step p s).2).1 = true
        ∧ changedFlag (main p (step p s).2).1 = false
        ∧ (main p (step p s).2).2 = []) := by
  obtain ⟨st, k, val, ov, rc, cm⟩ := p
  have hcm2 : cm = false := hcm
  subst hcm2
  by_cases hd : st = "directory"
  · subst hd
    cases s with
    | none =>
      refine ⟨fun h => ?_, fun hx => ?_⟩
      · simp [main, step, applyCalls, applyCall, prevValue, readData,
          changedFlag] at h
      · simp [main, step, applyCalls, applyCall, prevValue, readData,
          changedFlag, isExit] at hx ⊢
    | some n =>
      cases n with
      | leaf v =>
        refine ⟨fun h => ?_, fun hx => ?_⟩
        · simp [main, step, applyCalls, applyCall, prevValue, readData,
            changedFlag] at h
        · simp [main, step, applyCalls, applyCall, prevValue, readData,
            changedFlag, isExit] at hx ⊢
      | dir ch =>
        refine ⟨fun h => ?_, fun hx => ?_⟩
        · simp [main, step, applyCalls, applyCall, prevValue, readData,
            changedFlag] at h
        · simp [main, step, applyCalls, applyCall, prevValue, readData,
            changedFlag, isExit] at hx ⊢
  · by_cases hp : st = "present"
    · subst hp
      cases s with
      | none =>
        cases val with
        | none =>
          refine ⟨fun h => ?_, fun hx => ?_⟩
          · simp [main, step, applyCalls, applyCall, prevValue, readData,
              changedFlag] at h
          · simp [main, step, applyCalls, applyCall, prevValue, readData,
              changedFlag, isExit] at hx ⊢
        | some v =>
          refine ⟨fun h => ?_, fun hx => ?_⟩
          · simp [main, step, applyCalls, applyCall, prevValue, readData,
              changedFlag] at h
          · simp [main, step, applyCalls, applyCall, prevValue, readData,
              changedFlag, isExit] at hx ⊢
      | some n =>
        cases n with
        | leaf pv =>
          cases val with
          | none =>
            refine ⟨fun h => ?_, fun hx => ?_⟩
            · simp [main, step, applyCalls, applyCall, prevValue, readData,
                changedFlag] at h
            · simp [main, step, applyCalls, applyCall, prevValue, readData,
                changedFlag, isExit] at hx ⊢
          | some v =>
            by_cases hv : pv = v
            · subst hv
              refine ⟨fun h => ?_, fun hx => ?_⟩
              · simp [main, step, applyCalls, applyCall, prevValue, readData,
                  changedFlag] at h
              · simp [main, step, applyCalls, applyCall, prevValue, readData,
                  changedFlag, isExit] at hx ⊢
            · cases ov with
              | false =>
                refine ⟨fun h => ?_, fun hx => ?_⟩
                · simp [main, step, applyCalls, applyCall, prevValue, readData,
                    changedFlag, hv] at h
                · simp [main, step, applyCalls, applyCall, prevValue, readData,
                    changedFlag, isExit, hv] at hx ⊢
              | true =>
                refine ⟨fun h => ?_, fun hx => ?_⟩
                · simp [main, step, applyCalls, applyCall, prevValue, readData,
                    changedFlag, hv] at h
                · simp [main, step, applyCalls, applyCall, prevValue, readData,
                    changedFlag, isExit, hv] at hx ⊢
        | dir ch =>
          cases val with
          | none =>
            refine ⟨fun h => ?_, fun hx => ?_⟩
            · simp [main, step, applyCalls, applyCall, prevValue, readData,
                changedFlag] at h
            · simp [main, step, applyCalls, applyCall, prevValue, readData,
                changedFlag, isExit] at hx ⊢
          | some v =>
            refine ⟨fun h => ?_, fun hx => ?_⟩
            · simp [main, step, applyCalls, applyCall, prevValue, readData,
                changedFlag] at h
            · simp [main, step, applyCalls, applyCall, prevValue, readData,
                changedFlag, isExit] at hx ⊢
    · by_cases ha : st = "absent"
      · subst ha
        cases s with
        | none =>
          refine ⟨fun h => ?_, fun hx => ?_⟩
          · simp [main, step, applyCalls, applyCall, prevValue, readData,
              changedFlag] at h
          · simp [main, step, applyCalls, applyCall, prevValue, readData,
              changedFlag, isExit] at hx ⊢
        | some n =>
          cases n with
          | leaf v =>
            refine ⟨fun h => ?_, fun hx => ?_⟩
            · simp [main, step, applyCalls, applyCall, prevValue, readData,
                changedFlag] at h
            · simp [main, step, applyCalls, applyCall, prevValue, readData,
                changedFlag, isExit] at hx ⊢
          | dir ch =>
            refine ⟨fun h => ?_, fun hx => ?_⟩
            · simp [main, step, applyCalls, applyCall, prevValue, readData,
                changedFlag] at h
            · simp [main, step, applyCalls, applyCall, prevValue, readData,
                changedFlag, isExit] at hx ⊢
      · refine ⟨fun h => ?_, fun hx => ?_⟩
        · simp [main, step, applyCalls, applyCall, prevValue, readData,
            changedFlag, hd, hp, ha] at h
        · simp [main, step, applyCalls, applyCall, prevValue, readData,
            changedFlag, isExit, hd, hp, ha] at hx ⊢

/-- C9 witness: instantiated at a successful creation, state=present with
value "v" on an absent key. -/
theorem runs_idempotent_after_success_witness :
    ¬(changedFlag (main createLeafParams none).1 = true
      ∧ changedFlag (main createLeafParams (step createLeafParams none).2).1 = true)
    ∧ (isExit (main createLeafParams none).1 = true →
        isExit (main createLeafParams (step createLeafParams none).2).1 = true
        ∧ changedFlag (main createLeafParams (step createLeafParams none).2).1 = false
        ∧ (main createLeafParams (step createLeafParams none).2).2 = []) :=
  runs_idempotent_after_success createLeafParams none rfl

end Etcd
